import Mathlib

/-!
Shallow embedding of the ot-lan-rest-server repository.

The repository has two substantive source files:
* `src/rust_client/src/main.rs` — a tonic ping/pong client: build a tokio
  runtime, connect to `http://localhost:50051`, send one unary `ping`
  request with `ping = "ping"`, print the `pong` field of the reply
  (via the Rust debug formatter) and exit.
* `src/frontend/src/lib.rs` — three wasm-bindgen fetch wrappers:
  `create_user`, `login`, `fetch_users`.

Network, runtime and browser behaviour are modelled as explicit world
(oracle) records; the program logic is translated line by line.
-/

namespace PingPong

/-- `PingRequest` from the generated pingpong stubs: one text field `ping`. -/
structure PingRequest where
  ping : String
deriving DecidableEq, Repr

/-- `PongResponse` from the generated pingpong stubs: one text field `pong`. -/
structure PongResponse where
  pong : String
deriving DecidableEq, Repr

/-- `tonic::transport::Channel` — the established transport handle.  We record
the endpoint it was opened against. -/
structure Channel where
  endpoint : String
deriving DecidableEq, Repr

/-- `tonic::transport::Error`, as returned by a failed
`PingPongClient::connect`; only its textual cause matters here. -/
structure ConnectError where
  cause : String
deriving DecidableEq, Repr

/-- `tonic::Status` / transport errors from `client.ping`, split into the
failure classes the call can produce. -/
inductive CallError
  | transport (cause : String)
  | decode (cause : String)
  | remote (cause : String)
deriving DecidableEq, Repr

/-- Textual cause carried by a `CallError`. -/
def CallError.cause : CallError → String
  | .transport c => c
  | .decode c => c
  | .remote c => c

/-- The error value `main`'s async block propagates with `?`: either the
connect error or the call error, boxed as `Box<dyn Error>`. -/
inductive RunError
  | connect (e : ConnectError)
  | call (e : CallError)
deriving DecidableEq, Repr

/-- Textual cause of a boxed run error. -/
def RunError.cause : RunError → String
  | .connect e => e.cause
  | .call e => e.cause

/-- The network/service environment: what `PingPongClient::connect` returns
for an address, and what `client.ping` returns for a request over a given
channel. -/
structure World where
  connect : String → Except ConnectError Channel
  ping : Channel → PingRequest → Except CallError PongResponse

/-- Observable network events of one run, used to state the temporal
claims (one connect attempt, at most one call attempt, ordering). -/
inductive Event
  | connectAttempt (addr : String)
  | connectOk (h : Channel)
  | connectFailed (e : ConnectError)
  | callAttempt (h : Channel) (req : PingRequest)
  | callOk (r : PongResponse)
  | callFailed (e : CallError)
deriving DecidableEq, Repr

/-- Is the event a connect attempt? -/
def Event.isConnectAttempt : Event → Bool
  | .connectAttempt _ => true
  | _ => false

/-- Is the event a call attempt? -/
def Event.isCallAttempt : Event → Bool
  | .callAttempt _ _ => true
  | _ => false

/-- The address literal in `PingPongClient::connect("http://localhost:50051")`. -/
def defaultEndpoint : String := "http://localhost:50051"

/-- The request literal `PingRequest { ping: "ping".into() }`. -/
def pingRequest : PingRequest := { ping := "ping" }

/-- The async block passed to `rt.block_on` in `main`:
connect, then build the request, then call, each `?`-propagated.
Returns the trace of network events together with the block's result. -/
def asyncBlock (w : World) : List Event × Except RunError PongResponse :=
  match w.connect defaultEndpoint with
  | .error e =>
      ([.connectAttempt defaultEndpoint, .connectFailed e], .error (.connect e))
  | .ok client =>
      let request := pingRequest
      match w.ping client request with
      | .error e =>
          ([.connectAttempt defaultEndpoint, .connectOk client,
            .callAttempt client request, .callFailed e], .error (.call e))
      | .ok response =>
          ([.connectAttempt defaultEndpoint, .connectOk client,
            .callAttempt client request, .callOk response], .ok response)

/-- Escape one character the way Rust's `Debug` impl for `str` renders the
common escapes (quote, backslash, newline, carriage return, tab). -/
def rustCharEscape (c : Char) : String :=
  if c = '"' then "\\\""
  else if c = '\\' then "\\\\"
  else if c = '\n' then "\\n"
  else if c = '\r' then "\\r"
  else if c = '\t' then "\\t"
  else String.singleton c

/-- Rust `Debug` formatting of a `String`: the escaped text in quotes. -/
def rustDebugString (s : String) : String :=
  "\"" ++ String.join (s.toList.map rustCharEscape) ++ "\""

/-- Process-level environment: whether `Runtime::new()` succeeds, plus the
network world. -/
structure ProcessEnv where
  runtimeOk : Bool
  world : World

/-- Observable outcome of the process: a panic (from `.unwrap()`), or a
normal exit with the stdout lines, stderr lines and exit code. -/
inductive MainOutcome
  | panicked
  | exited (stdout : List String) (stderr : List String) (exitCode : Nat)
deriving DecidableEq, Repr

/-- `fn main()`: `Runtime::new().unwrap()` panics if runtime construction
fails; otherwise `block_on` the async block.  A `Result::Ok` from `main`
exits 0 after `println!("PingPong client received: {:?}", pong)`; a
`Result::Err` makes the Rust runtime print the error on stderr and exit 1. -/
def main (env : ProcessEnv) : MainOutcome :=
  if env.runtimeOk then
    match (asyncBlock env.world).2 with
    | .ok response =>
        .exited ["PingPong client received: " ++ rustDebugString response.pong] [] 0
    | .error e =>
        .exited [] ["Error: " ++ e.cause] 1
  else .panicked

/-- The network trace `main` produces when the runtime starts. -/
def mainTrace (env : ProcessEnv) : List Event :=
  if env.runtimeOk then (asyncBlock env.world).1 else []

/- Concrete worlds used as witnesses. -/

/-- A service double at the default endpoint replying `pong = "PONG"`. -/
def wPong : World :=
  { connect := fun addr => .ok { endpoint := addr }
    ping := fun _ _ => .ok { pong := "PONG" } }

/-- A world with nothing listening: connect fails. -/
def wNoListener : World :=
  { connect := fun _ => .error { cause := "connection refused" }
    ping := fun _ _ => .ok { pong := "PONG" } }

/-- A world where connect succeeds but the call fails in transport. -/
def wCallFail : World :=
  { connect := fun addr => .ok { endpoint := addr }
    ping := fun _ _ => .error (.transport "connection reset") }

/-- Environment with a working runtime over a given world. -/
def envOf (w : World) : ProcessEnv := { runtimeOk := true, world := w }

end PingPong

namespace Frontend

/-- The `User` record serialized by `create_user`. -/
structure User where
  username : String
  email : String
  password : String
deriving DecidableEq, Repr

/-- The `Credentials` record serialized by `login`. -/
structure Credentials where
  username : String
  password : String
deriving DecidableEq, Repr

/-- Escape one character for a serde-json string literal. -/
def jsonCharEscape (c : Char) : String :=
  if c = '"' then "\\\""
  else if c = '\\' then "\\\\"
  else if c = '\n' then "\\n"
  else if c = '\r' then "\\r"
  else if c = '\t' then "\\t"
  else String.singleton c

/-- A serde-json string literal. -/
def jsonStringLit (s : String) : String :=
  "\"" ++ String.join (s.toList.map jsonCharEscape) ++ "\""

/-- `serde_json::to_string(&user)`: fields in declaration order. -/
def serializeUser (u : User) : String :=
  "\x7b\"username\":" ++ jsonStringLit u.username ++
    ",\"email\":" ++ jsonStringLit u.email ++
    ",\"password\":" ++ jsonStringLit u.password ++ "\x7d"

/-- `serde_json::to_string(&creds)`: fields in declaration order. -/
def serializeCredentials (c : Credentials) : String :=
  "\x7b\"username\":" ++ jsonStringLit c.username ++
    ",\"password\":" ++ jsonStringLit c.password ++ "\x7d"

/-- `web_sys::RequestMode` values used by the code. -/
inductive RequestMode
  | cors
deriving DecidableEq, Repr

/-- The request a wasm operation hands to `window.fetch`:
URL, method, mode, header list, optional body. -/
structure HttpRequest where
  url : String
  method : String
  mode : RequestMode
  headers : List (String × String)
  body : Option String
deriving DecidableEq, Repr

/-- A minimal JSON value model for what `resp.json()` yields. -/
inductive Json
  | null
  | bool (b : Bool)
  | num (n : Int)
  | str (s : String)
  | arr (xs : List Json)
  | obj (fields : List (String × Json))

/-- A `JsValue`: either a plain string (as built by `JsValue::from_str`)
or a JSON value (as resolved from `resp.json()`). -/
inductive JsValue
  | str (s : String)
  | json (j : Json)

/-- A `web_sys::Response`: HTTP status plus body text. -/
structure Response where
  status : Nat
  body : String
deriving DecidableEq, Repr

/-- `Response::ok()`: status in the 200–299 range. -/
def Response.respOk (r : Response) : Bool :=
  200 ≤ r.status && r.status ≤ 299

/-- Browser environment: what `window.fetch` resolves (or rejects) for a
request, and what `resp.json()` resolves (or rejects) for a body. -/
structure FetchWorld where
  fetch : HttpRequest → Except JsValue Response
  parseJson : String → Except JsValue Json

/-- The request `create_user` builds: JSON POST to `/api/users/` in cors
mode, with content-type and bearer-token headers, body the serialized user. -/
def create_user_request (username email password token : String) : HttpRequest :=
  { url := "/api/users/"
    method := "POST"
    mode := .cors
    headers := [("Content-Type", "application/json"),
                ("Authorization", "Bearer " ++ token)]
    body := some (serializeUser { username, email, password }) }

/-- `create_user`: build the request, fetch, then on a success status parse
the body as JSON and return it; on any other status fail with the fixed
string `HTTP request failed`.  Also returns the list of requests issued. -/
def create_user (w : FetchWorld) (username email password token : String) :
    List HttpRequest × Except JsValue JsValue :=
  let request := create_user_request username email password token
  match w.fetch request with
  | .error e => ([request], .error e)
  | .ok resp =>
      if resp.respOk then
        match w.parseJson resp.body with
        | .error e => ([request], .error e)
        | .ok j => ([request], .ok (.json j))
      else ([request], .error (.str "HTTP request failed"))

/-- The request `login` builds: JSON POST to `/api/login/` in cors mode,
content-type header only, body the serialized credentials. -/
def login_request (username password : String) : HttpRequest :=
  { url := "/api/login/"
    method := "POST"
    mode := .cors
    headers := [("Content-Type", "application/json")]
    body := some (serializeCredentials { username, password }) }

/-- `login`: build the request, fetch, then on a success status parse the
body as JSON and return it; on any other status fail with the fixed string
`Login failed`. -/
def login (w : FetchWorld) (username password : String) :
    List HttpRequest × Except JsValue JsValue :=
  let request := login_request username password
  match w.fetch request with
  | .error e => ([request], .error e)
  | .ok resp =>
      if resp.respOk then
        match w.parseJson resp.body with
        | .error e => ([request], .error e)
        | .ok j => ([request], .ok (.json j))
      else ([request], .error (.str "Login failed"))

/-- The request `fetch_users` builds: GET to `/api/users/` in cors mode,
no headers, no body. -/
def fetch_users_request : HttpRequest :=
  { url := "/api/users/"
    method := "GET"
    mode := .cors
    headers := []
    body := none }

/-- `fetch_users`: build the request, fetch, then on a success status parse
the body as JSON and return it; on any other status fail with the fixed
string `Failed to fetch users`. -/
def fetch_users (w : FetchWorld) :
    List HttpRequest × Except JsValue JsValue :=
  let request := fetch_users_request
  match w.fetch request with
  | .error e => ([request], .error e)
  | .ok resp =>
      if resp.respOk then
        match w.parseJson resp.body with
        | .error e => ([request], .error e)
        | .ok j => ([request], .ok (.json j))
      else ([request], .error (.str "Failed to fetch users"))

/-- A browser world replying 200 with body `[]`, parsed as the empty array. -/
def fwOk : FetchWorld :=
  { fetch := fun _ => .ok { status := 200, body := "[]" }
    parseJson := fun b => if b = "[]" then .ok (.arr []) else .error (.str "parse error") }

/-- A browser world replying 404 with an HTML body. -/
def fwNotFound : FetchWorld :=
  { fetch := fun _ => .ok { status := 404, body := "not found" }
    parseJson := fun _ => .error (.str "parse error") }

end Frontend

namespace PingPong

/-- C1 counterexample: with a double at the default endpoint replying
`pong = "PONG"`, the run succeeds and exits 0, but the line printed is
`PingPong client received: "PONG"`, not `PONG`: the claim that the program
writes exactly the received pong text is false. -/
theorem C1_counterexample :
    main (envOf wPong) =
      .exited ["PingPong client received: \"PONG\""] [] 0 ∧
    "PingPong client received: \"PONG\"" ≠ "PONG" := by
  constructor
  · rfl
  · decide

/-- C1 (amended): on a successful run the program prints one line made of
the fixed prefix `PingPong client received: ` followed by the Debug
(quoted) rendering of the received pong text, and exits 0; when the
service replies `pong = "PONG"` the printed line is
`PingPong client received: "PONG"`. -/
theorem C1_success_output :
    (∀ (w : World) (resp : PongResponse),
        (asyncBlock w).2 = .ok resp →
        main (envOf w) =
          .exited ["PingPong client received: " ++ rustDebugString resp.pong] [] 0) ∧
    main (envOf wPong) =
      .exited ["PingPong client received: \"PONG\""] [] 0 := by
  constructor
  · intro w resp h
    simp [main, envOf, h]
  · rfl

/-- C1 witness: the general success clause applied to the concrete
PONG-replying world. -/
theorem C1_success_output_witness :
    main (envOf wPong) =
      .exited ["PingPong client received: " ++ rustDebugString "PONG"] [] 0 :=
  C1_success_output.1 wPong { pong := "PONG" } rfl

/-- C2: with the runtime up, every run either yields exactly one decoded
PongResponse (printed, exit 0) or exactly one error, surfaced with its
textual cause on stderr and a non-zero exit; there is no recovery path. -/
theorem C2_error_surfacing :
    ∀ env : ProcessEnv, env.runtimeOk = true →
      (∃ resp, (asyncBlock env.world).2 = .ok resp ∧
        main env =
          .exited ["PingPong client received: " ++ rustDebugString resp.pong] [] 0) ∨
      (∃ e, (asyncBlock env.world).2 = .error e ∧
        main env = .exited [] ["Error: " ++ RunError.cause e] 1) := by
  intro env hrt
  cases h : (asyncBlock env.world).2 with
  | ok resp => exact .inl ⟨resp, rfl, by simp [main, hrt, h]⟩
  | error e => exact .inr ⟨e, rfl, by simp [main, hrt, h]⟩

/-- C2 witness: the theorem at the no-listener world, where the connect
error is surfaced and the exit code is 1. -/
theorem C2_error_surfacing_witness :
    (∃ resp, (asyncBlock (envOf wNoListener).world).2 = .ok resp ∧
      main (envOf wNoListener) =
        .exited ["PingPong client received: " ++ rustDebugString resp.pong] [] 0) ∨
    (∃ e, (asyncBlock (envOf wNoListener).world).2 = .error e ∧
      main (envOf wNoListener) = .exited [] ["Error: " ++ RunError.cause e] 1) :=
  C2_error_surfacing (envOf wNoListener) rfl

/-- C3: when connect fails no call attempt appears in the trace, and every
call attempt in any trace uses exactly the handle returned by the
successful connect of the same run. -/
theorem C3_no_call_after_connect_failure :
    (∀ (w : World) (e : ConnectError),
        w.connect defaultEndpoint = .error e →
        (asyncBlock w).1.filter Event.isCallAttempt = []) ∧
    (∀ (w : World) (h : Channel) (req : PingRequest),
        Event.callAttempt h req ∈ (asyncBlock w).1 →
        w.connect defaultEndpoint = .ok h) := by
  constructor
  · intro w e he
    simp [asyncBlock, he, Event.isCallAttempt]
  · intro w h req hmem
    cases hc : w.connect defaultEndpoint with
    | error e =>
        simp [asyncBlock, hc] at hmem
    | ok c =>
        cases hp : w.ping c pingRequest with
        | error e =>
            simp [asyncBlock, hc, hp] at hmem
            rw [hmem.1]
        | ok resp =>
            simp [asyncBlock, hc, hp] at hmem
            rw [hmem.1]

/-- C3 witness: in the concrete world with no listener the trace holds no
call attempt. -/
theorem C3_no_call_after_connect_failure_witness :
    (asyncBlock wNoListener).1.filter Event.isCallAttempt = [] :=
  C3_no_call_after_connect_failure.1 wNoListener
    { cause := "connection refused" } rfl

/-- C4: every run makes exactly one connect attempt and at most one call
attempt, whatever the outcomes: no operation is retried. -/
theorem C4_no_retry :
    ∀ w : World,
      ((asyncBlock w).1.filter Event.isConnectAttempt).length = 1 ∧
      ((asyncBlock w).1.filter Event.isCallAttempt).length ≤ 1 := by
  intro w
  cases hc : w.connect defaultEndpoint with
  | error e =>
      simp [asyncBlock, hc, Event.isConnectAttempt, Event.isCallAttempt]
  | ok c =>
      cases hp : w.ping c pingRequest with
      | error e =>
          simp [asyncBlock, hc, hp, Event.isConnectAttempt, Event.isCallAttempt]
      | ok resp =>
          simp [asyncBlock, hc, hp, Event.isConnectAttempt, Event.isCallAttempt]

/-- C6: every run starts with a connect attempt against the fixed endpoint
`http://localhost:50051`, and when connect succeeds it sends exactly one
unary request, whose `ping` field is `"ping"`. -/
theorem C6_fixed_endpoint_and_request :
    ∀ w : World,
      defaultEndpoint = "http://localhost:50051" ∧
      (asyncBlock w).1.head? = some (.connectAttempt defaultEndpoint) ∧
      (∀ h : Channel, w.connect defaultEndpoint = .ok h →
        (asyncBlock w).1.filter Event.isCallAttempt =
          [.callAttempt h pingRequest]) ∧
      pingRequest.ping = "ping" := by
  intro w
  refine ⟨rfl, ?_, ?_, rfl⟩
  · cases hc : w.connect defaultEndpoint with
    | error e => simp [asyncBlock, hc]
    | ok c =>
        cases hp : w.ping c pingRequest with
        | error e => simp [asyncBlock, hc, hp]
        | ok resp => simp [asyncBlock, hc, hp]
  · intro h hc
    cases hp : w.ping h pingRequest with
    | error e => simp [asyncBlock, hc, hp, Event.isCallAttempt]
    | ok resp => simp [asyncBlock, hc, hp, Event.isCallAttempt]

/-- C6 witness: the theorem at the PONG-replying world, with the call
attempt clause discharged at the handle its connect returns. -/
theorem C6_fixed_endpoint_and_request_witness :
    (asyncBlock wPong).1.filter Event.isCallAttempt =
      [.callAttempt { endpoint := defaultEndpoint } pingRequest] :=
  (C6_fixed_endpoint_and_request wPong).2.2.1 { endpoint := defaultEndpoint } rfl

/-- C8: a channel is only ever used by a call attempt if the run's connect
returned exactly that channel (and the trace records the successful
connect); after an observed connect failure no call attempt exists; and a
PongResponse is returned only when it is the successfully decoded reply of
the remote call — never fabricated locally. -/
theorem C8_handle_and_response_provenance :
    ∀ w : World,
      (∀ (h : Channel) (req : PingRequest),
          Event.callAttempt h req ∈ (asyncBlock w).1 →
          w.connect defaultEndpoint = .ok h ∧
          Event.connectOk h ∈ (asyncBlock w).1) ∧
      (∀ e : ConnectError, w.connect defaultEndpoint = .error e →
          (asyncBlock w).1.filter Event.isCallAttempt = []) ∧
      (∀ resp : PongResponse, (asyncBlock w).2 = .ok resp →
          ∃ h : Channel, w.connect defaultEndpoint = .ok h ∧
            w.ping h pingRequest = .ok resp ∧
            Event.callOk resp ∈ (asyncBlock w).1) := by
  intro w
  refine ⟨?_, ?_, ?_⟩
  · intro h req hmem
    cases hc : w.connect defaultEndpoint with
    | error e => simp [asyncBlock, hc] at hmem
    | ok c =>
        cases hp : w.ping c pingRequest with
        | error e =>
            simp [asyncBlock, hc, hp] at hmem
            simp [asyncBlock, hc, hp, hmem.1]
        | ok resp =>
            simp [asyncBlock, hc, hp] at hmem
            simp [asyncBlock, hc, hp, hmem.1]
  · intro e he
    simp [asyncBlock, he, Event.isCallAttempt]
  · intro resp hres
    cases hc : w.connect defaultEndpoint with
    | error e => simp [asyncBlock, hc] at hres
    | ok c =>
        cases hp : w.ping c pingRequest with
        | error e => simp [asyncBlock, hc, hp] at hres
        | ok r =>
            simp [asyncBlock, hc, hp] at hres
            exact ⟨c, rfl, by rw [hp, hres], by simp [asyncBlock, hc, hp, hres]⟩

/-- C8 witness: in the PONG world the returned response is traced back to
the successful connect and the decoded reply of the single call. -/
theorem C8_handle_and_response_provenance_witness :
    ∃ h : Channel, wPong.connect defaultEndpoint = .ok h ∧
      wPong.ping h pingRequest = .ok { pong := "PONG" } ∧
      Event.callOk { pong := "PONG" } ∈ (asyncBlock wPong).1 :=
  (C8_handle_and_response_provenance wPong).2.2 { pong := "PONG" } rfl

/-- C9: if runtime construction fails the process panics (the `.unwrap()`)
rather than returning through main's Result channel; a normal exit implies
the runtime came up, and a failing exit carries a RunError (a connect or
call error) from the async block — those are the only Result-channel
failures. -/
theorem C9_runtime_unwrap_panics :
    ∀ env : ProcessEnv,
      (env.runtimeOk = false → main env = .panicked) ∧
      (∀ out err c, main env = .exited out err c → env.runtimeOk = true) ∧
      (∀ out err, main env = .exited out err 1 →
        ∃ e : RunError, (asyncBlock env.world).2 = .error e) := by
  intro env
  refine ⟨?_, ?_, ?_⟩
  · intro h
    simp [main, h]
  · intro out err c h
    by_contra hfalse
    simp [main, Bool.not_eq_true] at hfalse
    simp [main, hfalse] at h
  · intro out err h
    cases hrt : env.runtimeOk with
    | false => simp [main, hrt] at h
    | true =>
        cases hres : (asyncBlock env.world).2 with
        | ok resp => simp [main, hrt, hres] at h
        | error e => exact ⟨e, rfl⟩

/-- C9 witness: a failing runtime makes the process panic in the concrete
PONG world. -/
theorem C9_runtime_unwrap_panics_witness :
    main { runtimeOk := false, world := wPong } = .panicked :=
  (C9_runtime_unwrap_panics { runtimeOk := false, world := wPong }).1 rfl

end PingPong

namespace Frontend

/-- Helper: `create_user` issues exactly the one request it builds. -/
theorem create_user_issued (w : FetchWorld) (u em p t : String) :
    (create_user w u em p t).1 = [create_user_request u em p t] := by
  cases hf : w.fetch (create_user_request u em p t) with
  | error e => simp [create_user, hf]
  | ok r =>
      cases hok : r.respOk with
      | false => simp [create_user, hf, hok]
      | true =>
          cases hj : w.parseJson r.body with
          | error e => simp [create_user, hf, hok, hj]
          | ok j => simp [create_user, hf, hok, hj]

/-- Helper: `login` issues exactly the one request it builds. -/
theorem login_issued (w : FetchWorld) (u p : String) :
    (login w u p).1 = [login_request u p] := by
  cases hf : w.fetch (login_request u p) with
  | error e => simp [login, hf]
  | ok r =>
      cases hok : r.respOk with
      | false => simp [login, hf, hok]
      | true =>
          cases hj : w.parseJson r.body with
          | error e => simp [login, hf, hok, hj]
          | ok j => simp [login, hf, hok, hj]

/-- Helper: `fetch_users` issues exactly the one request it builds. -/
theorem fetch_users_issued (w : FetchWorld) :
    (fetch_users w).1 = [fetch_users_request] := by
  cases hf : w.fetch fetch_users_request with
  | error e => simp [fetch_users, hf]
  | ok r =>
      cases hok : r.respOk with
      | false => simp [fetch_users, hf, hok]
      | true =>
          cases hj : w.parseJson r.body with
          | error e => simp [fetch_users, hf, hok, hj]
          | ok j => simp [fetch_users, hf, hok, hj]

/-- C5: for each of the three operations, a non-success status fails with
that operation's one fixed error string (independent of the particular
status or body), a success status parses the body as JSON and returns the
parsed value verbatim, and exactly one request is issued (no retry). -/
theorem C5_http_failure_and_passthrough :
    ∀ (w : FetchWorld) (u em p t : String) (resp : Response),
      (w.fetch (create_user_request u em p t) = .ok resp →
        (resp.respOk = false →
          (create_user w u em p t).2 = .error (.str "HTTP request failed")) ∧
        (resp.respOk = true → ∀ j, w.parseJson resp.body = .ok j →
          (create_user w u em p t).2 = .ok (.json j))) ∧
      (w.fetch (login_request u p) = .ok resp →
        (resp.respOk = false →
          (login w u p).2 = .error (.str "Login failed")) ∧
        (resp.respOk = true → ∀ j, w.parseJson resp.body = .ok j →
          (login w u p).2 = .ok (.json j))) ∧
      (w.fetch fetch_users_request = .ok resp →
        (resp.respOk = false →
          (fetch_users w).2 = .error (.str "Failed to fetch users")) ∧
        (resp.respOk = true → ∀ j, w.parseJson resp.body = .ok j →
          (fetch_users w).2 = .ok (.json j))) ∧
      (create_user w u em p t).1.length = 1 ∧
      (login w u p).1.length = 1 ∧
      (fetch_users w).1.length = 1 := by
  intro w u em p t resp
  refine ⟨?_, ?_, ?_, ?_, ?_, ?_⟩
  · intro hf
    constructor
    · intro hok
      simp [create_user, hf, hok]
    · intro hok j hj
      simp [create_user, hf, hok, hj]
  · intro hf
    constructor
    · intro hok
      simp [login, hf, hok]
    · intro hok j hj
      simp [login, hf, hok, hj]
  · intro hf
    constructor
    · intro hok
      simp [fetch_users, hf, hok]
    · intro hok j hj
      simp [fetch_users, hf, hok, hj]
  · rw [create_user_issued]
    rfl
  · rw [login_issued]
    rfl
  · rw [fetch_users_issued]
    rfl

/-- C5 witness: in the 200-replying world `create_user` returns the parsed
body verbatim, and in the 404-replying world `login` fails with its fixed
error string. -/
theorem C5_http_failure_and_passthrough_witness :
    (create_user fwOk "alice" "alice@example.com" "pw" "tok").2 =
      .ok (.json (.arr [])) ∧
    (login fwNotFound "alice" "pw").2 = .error (.str "Login failed") :=
  ⟨((C5_http_failure_and_passthrough fwOk "alice" "alice@example.com" "pw" "tok"
      { status := 200, body := "[]" }).1 rfl).2 rfl (.arr []) rfl,
   ((C5_http_failure_and_passthrough fwNotFound "alice" "alice@example.com" "pw" "tok"
      { status := 404, body := "not found" }).2.1 rfl).1 rfl⟩

/-- C7: `create_user` issues a cors-mode JSON POST whose headers carry
`Authorization: Bearer token`, while `login` issues a cors-mode JSON POST
whose headers carry no Authorization entry; both issue exactly their built
request. -/
theorem C7_authorization_headers :
    ∀ (w : FetchWorld) (u em p t : String),
      (create_user_request u em p t).method = "POST" ∧
      (create_user_request u em p t).headers =
        [("Content-Type", "application/json"),
         ("Authorization", "Bearer " ++ t)] ∧
      (create_user w u em p t).1 = [create_user_request u em p t] ∧
      (login_request u p).method = "POST" ∧
      (login_request u p).headers = [("Content-Type", "application/json")] ∧
      (login_request u p).headers.filter
        (fun kv => kv.1 == "Authorization") = [] ∧
      (login w u p).1 = [login_request u p] := by
  intro w u em p t
  exact ⟨rfl, rfl, create_user_issued w u em p t, rfl, rfl, rfl,
    login_issued w u p⟩

/-- C10: the target URLs are fixed: `create_user` POSTs to `/api/users/`,
`login` POSTs to `/api/login/`, `fetch_users` GETs the same `/api/users/`
path `create_user` posts to, and no caller input or world changes the URL
any operation issues. -/
theorem C10_fixed_urls :
    ∀ (w : FetchWorld) (u em p t : String),
      (create_user_request u em p t).url = "/api/users/" ∧
      (login_request u p).url = "/api/login/" ∧
      fetch_users_request.url = "/api/users/" ∧
      (create_user_request u em p t).url = fetch_users_request.url ∧
      fetch_users_request.method = "GET" ∧
      (create_user w u em p t).1.map HttpRequest.url = ["/api/users/"] ∧
      (login w u p).1.map HttpRequest.url = ["/api/login/"] ∧
      (fetch_users w).1.map HttpRequest.url = ["/api/users/"] := by
  intro w u em p t
  refine ⟨rfl, rfl, rfl, rfl, rfl, ?_, ?_, ?_⟩
  · rw [create_user_issued]
    rfl
  · rw [login_issued]
    rfl
  · rw [fetch_users_issued]
    rfl

end Frontend
